import Mathlib

/-!
Verification development for the Oshi-suta step-synchronization backend
(`backend/app`): a shallow embedding of the points-accrual pipeline
(`services/step_service.py`, `services/point_calculator.py`,
`utils/validators.py`, `repositories/firestore_repo.py`,
`api/v1/endpoints/steps.py`, `models/schemas.py`, `config/constants.py`)
together with theorems about its behaviour.

Modelling conventions:
- Python `int` is embedded as `Int`; Python `//` (floor division) as `Int.fdiv`.
- Python `datetime.date` objects are embedded as their proleptic-Gregorian
  day ordinal (an `Int`, Unix epoch 1970-01-01 = 0); `date` equality and
  `timedelta(days=1)` arithmetic correspond to equality and `±1` on ordinals.
- Firestore documents are free-form dicts; fields read through
  `dict.get(key, default)` are embedded as `Option` fields with `Option.getD`.
- Wall-clock timestamp fields (`created_at`, `updated_at`, `synced_at`) carry
  no logic; `synced_at` is modelled as an explicit `now` parameter and the
  stored timestamps are omitted from the document models.
- `raise ValueError(msg)` is embedded as `Except.error (.valueError msg)`;
  a Firestore `update()` on a missing document raises the client library's
  NotFound error, embedded as `.firestoreNotFound`.
- Each stateful operation returns its result together with the database
  state, so that "no write happened" is expressible even on error paths.
-/

namespace OshiSuta

/-! ## Calendar dates (model of `datetime.date` / `strptime("%Y-%m-%d")`) -/

/-- Gregorian leap-year rule, as used by `datetime`. -/
def isLeapYear (y : Int) : Bool :=
  y % 4 == 0 && (y % 100 != 0 || y % 400 == 0)

/-- Number of days in month `m` of year `y` (months are 1-based). -/
def daysInMonth (y : Int) (m : Nat) : Nat :=
  if m = 2 then (if isLeapYear y then 29 else 28)
  else if m = 4 ∨ m = 6 ∨ m = 9 ∨ m = 11 then 30
  else 31

/-- Day ordinal of a civil date (days since 1970-01-01, Hinnant's algorithm);
    the embedding of `datetime.date.toordinal` up to a constant shift. -/
def daysFromCivil (y : Int) (m d : Nat) : Int :=
  let y1 : Int := if m ≤ 2 then y - 1 else y
  let era : Int := (if 0 ≤ y1 then y1 else y1 - 399) / 400
  let yoe : Int := y1 - era * 400
  let mp : Int := (m : Int) + (if 2 < m then -3 else 9)
  let doy : Int := (153 * mp + 2) / 5 + (d : Int) - 1
  let doe : Int := yoe * 365 + yoe / 4 - yoe / 100 + doy
  era * 146097 + doe - 719468

/-- Numeric value of a decimal digit character. -/
def digitVal (c : Char) : Nat := c.toNat - 48

/-- Parse a `YYYY-MM-DD` string into (year, month, day).
    This embeds `validate_date_format`'s combination of the regex
    `^\d\x7b4\x7d-\d\x7b2\x7d-\d\x7b2\x7d$` with `datetime.strptime(s, "%Y-%m-%d")`:
    exactly ten characters in digit/hyphen shape, a real calendar date, and a
    year in `datetime`'s supported range (`MINYEAR = 1`). -/
def parseYMD (s : String) : Option (Int × Nat × Nat) :=
  match s.data with
  | [y1, y2, y3, y4, h1, m1, m2, h2, d1, d2] =>
    if h1 = '-' ∧ h2 = '-' ∧ y1.isDigit ∧ y2.isDigit ∧ y3.isDigit ∧ y4.isDigit ∧
        m1.isDigit ∧ m2.isDigit ∧ d1.isDigit ∧ d2.isDigit then
      let y : Nat := digitVal y1 * 1000 + digitVal y2 * 100 + digitVal y3 * 10 + digitVal y4
      let m : Nat := digitVal m1 * 10 + digitVal m2
      let d : Nat := digitVal d1 * 10 + digitVal d2
      if 1 ≤ y ∧ 1 ≤ m ∧ m ≤ 12 ∧ 1 ≤ d ∧ d ≤ daysInMonth (y : Int) m then
        some ((y : Int), m, d)
      else none
    else none
  | _ => none

/-- Parse a `YYYY-MM-DD` string directly to its day ordinal. -/
def parseDateOrd (s : String) : Option Int :=
  (parseYMD s).map (fun p => daysFromCivil p.1 p.2.1 p.2.2)

/-! ## Constants (`config/constants.py`) -/

def STEPS_PER_POINT : Int := 1000
def MAX_DAILY_STEPS : Int := 100000
def MIN_STEPS : Int := 0
def MAX_STEPS : Int := MAX_DAILY_STEPS

/-! ## Validators (`utils/validators.py`) -/

/-- Embeds `validate_steps`: `MIN_STEPS <= steps <= MAX_STEPS`. -/
def validate_steps (steps : Int) : Bool :=
  MIN_STEPS ≤ steps && steps ≤ MAX_STEPS

/-- Embeds `validate_date_format`: regex shape check plus `strptime` validity. -/
def validate_date_format (date_str : String) : Bool :=
  (parseYMD date_str).isSome

/-- Embeds `validate_date_not_future`: parsed date `<=` today, `False` when
    `strptime` fails. `today` is the ordinal of `datetime.now().date()`. -/
def validate_date_not_future (today : Int) (date_str : String) : Bool :=
  match parseDateOrd date_str with
  | some d => d ≤ today
  | none => false

/-! ## Point calculator (`services/point_calculator.py`), with the default
    `steps_per_point = STEPS_PER_POINT` used by `StepService`. -/

/-- Embeds `PointCalculator.calculate_points`: 0 for negative input, else
    floor division by `STEPS_PER_POINT`. -/
def calculate_points (steps : Int) : Int :=
  if steps < 0 then 0 else Int.fdiv steps STEPS_PER_POINT

/-- Embeds `PointCalculator.calculate_club_contribution`. The club total is accepted
    and ignored, as in the source. -/
def calculate_club_contribution (points : Int) (club_total_points : Int) : String :=
  if points = 0 then "Every step counts! Keep walking for your club!"
  else if 10 ≤ points then
    "Amazing! You\x27ve earned " ++ toString points ++ " points for your club!"
  else if 5 ≤ points then
    "Great job! " ++ toString points ++ " points added to your club\x27s total!"
  else
    "Nice work! " ++ toString points ++ " points contributed to your club!"

/-! ## Errors

Python raises `ValueError(msg)` in the service layer; the Firestore client's
`update()` raises its own NotFound error when the target document is absent.
-/

inductive PyError where
  | valueError (msg : String)
  | firestoreNotFound
  deriving DecidableEq, Repr

/-! ## Document models (free-form Firestore dicts, restricted to the fields
    this pipeline reads or writes; timestamp fields omitted). -/

/-- A `users/{user_id}` document, fields read via `dict.get`. -/
structure UserDoc where
  total_points : Option Int := none
  club_id : Option String := none
  deriving DecidableEq, Repr

/-- A `clubs/{club_id}` document. -/
structure ClubDoc where
  total_points : Option Int := none
  deriving DecidableEq, Repr

/-- A `steps/{user_id}_{date}` document. -/
structure LogDoc where
  user_id : Option String := none
  date : Option String := none
  steps : Option Int := none
  points : Option Int := none
  source : Option String := none
  device_signature : Option String := none
  deriving DecidableEq, Repr

/-- The Firestore database state: the three collections used by the pipeline,
    each an association list from document id to document. -/
structure DB where
  users : List (String × UserDoc) := []
  clubs : List (String × ClubDoc) := []
  steps : List (String × LogDoc) := []
  deriving DecidableEq, Repr

/-- Document lookup by id. -/
def lookupDoc {α : Type} : List (String × α) → String → Option α
  | [], _ => none
  | (k, v) :: rest, key => if k = key then some v else lookupDoc rest key

/-- Document `set` by id: overwrite in place if present, else append. -/
def setDoc {α : Type} : List (String × α) → String → α → List (String × α)
  | [], key, v => [(key, v)]
  | (k, w) :: rest, key, v =>
    if k = key then (key, v) :: rest else (k, w) :: setDoc rest key v

/-! ## Repository operations (`repositories/firestore_repo.py`) -/

/-- Embeds `FirestoreRepository.get_user`. -/
def getUser (db : DB) (user_id : String) : Option UserDoc :=
  lookupDoc db.users user_id

/-- Embeds `FirestoreRepository.get_club`. -/
def getClub (db : DB) (club_id : String) : Option ClubDoc :=
  lookupDoc db.clubs club_id

/-- The step-log document id `f"{user_id}_{date}"`. -/
def stepDocId (user_id date : String) : String :=
  user_id ++ "_" ++ date

/-- Embeds `FirestoreRepository.get_step_log`. -/
def getStepLog (db : DB) (user_id date : String) : Option LogDoc :=
  lookupDoc db.steps (stepDocId user_id date)

/-- Embeds `FirestoreRepository.save_step_log` (a `set`, so create-or-overwrite). -/
def saveStepLog (db : DB) (user_id date : String) (steps points : Int)
    (source device_signature : String) : DB :=
  let log_data : LogDoc :=
    { user_id := some user_id, date := some date, steps := some steps,
      points := some points, source := some source,
      device_signature := some device_signature }
  { db with steps := setDoc db.steps (stepDocId user_id date) log_data }

/-- Embeds `FirestoreRepository.increment_user_points`: a Firestore `update` with
    `firestore.Increment(points)`. `update` fails when the document is
    absent; `Increment` on an absent field sets it to the delta, i.e. treats
    the old value as 0. -/
def incrementUserPoints (db : DB) (user_id : String) (points : Int) :
    Except PyError DB :=
  match lookupDoc db.users user_id with
  | none => .error .firestoreNotFound
  | some u =>
    let u1 : UserDoc := { u with total_points := some (u.total_points.getD 0 + points) }
    .ok { db with users := setDoc db.users user_id u1 }

/-- Embeds `FirestoreRepository.increment_club_points`, same `update` semantics. -/
def incrementClubPoints (db : DB) (club_id : String) (points : Int) :
    Except PyError DB :=
  match lookupDoc db.clubs club_id with
  | none => .error .firestoreNotFound
  | some c =>
    let c1 : ClubDoc := { c with total_points := some (c.total_points.getD 0 + points) }
    .ok { db with clubs := setDoc db.clubs club_id c1 }

/-- Stable insertion of `x` into `acc` (after all elements whose key is `≤`),
    used to embed Python's stable `sorted(..., key=...)`. -/
def insertByLe {α : Type} (le : α → α → Bool) (x : α) : List α → List α
  | [] => [x]
  | y :: ys => if le y x then y :: insertByLe le x ys else x :: y :: ys

/-- Stable sort by a boolean `≤` test: the unique stable sort, hence the
    embedding of Python's `sorted`. -/
def sortByLe {α : Type} (le : α → α → Bool) (l : List α) : List α :=
  l.foldl (fun acc x => insertByLe le x acc) []

/-- Embeds `FirestoreRepository.get_user_step_history`: filter on `user_id`, order
    by `date` descending, limit. Firestore excludes from an `order_by("date")`
    query any document lacking a `date` field. String order on canonical
    `YYYY-MM-DD` strings coincides with date order. -/
def getUserStepHistory (db : DB) (user_id : String) (limit : Nat) : List LogDoc :=
  let docs := (db.steps.map Prod.snd).filter
    (fun l => l.user_id == some user_id && l.date.isSome)
  let sorted := sortByLe (fun a b => (b.date.getD "") ≤ (a.date.getD "")) docs
  sorted.take limit

/-! ## Step service (`services/step_service.py`) -/

/-- The service-layer sync result dictionary. -/
structure SyncResult where
  points_earned : Int
  total_points : Int
  club_contribution : String
  is_verified : Bool
  is_duplicate : Bool
  deriving DecidableEq, Repr

/-- Python truthiness of an optional string (`if club_id:`):
    `None` and `""` are falsy. -/
def strTruthy : Option String → Bool
  | none => false
  | some s => s ≠ ""

/-- The fixed message returned on the duplicate path. -/
def dupMessage : String := "Data already synced for this date"

/-- Embeds `user.get("total_points", 0) if user else 0`. -/
def userTotal (db : DB) (user_id : String) : Int :=
  ((getUser db user_id).map (fun u => u.total_points.getD 0)).getD 0

/-- Steps 6-9 of `StepService.sync_steps` (everything after the step log has
    been saved and the user total incremented): resolve the user, credit the
    club, re-read totals, build the message. -/
def syncTail (db : DB) (user_id : String) (points : Int) :
    Except PyError SyncResult × DB :=
  match getUser db user_id with
  | none => (.error (.valueError ("User " ++ user_id ++ " not found")), db)
  | some user =>
    let cid := user.club_id
    let step7 : Except PyError DB :=
      if strTruthy cid then incrementClubPoints db (cid.getD "") points
      else .ok db
    match step7 with
    | .error e => (.error e, db)
    | .ok db1 =>
      let total_points := userTotal db1 user_id
      let club := if strTruthy cid then getClub db1 (cid.getD "") else none
      let club_total := (club.map (fun c => c.total_points.getD 0)).getD 0
      let msg := calculate_club_contribution points club_total
      (.ok { points_earned := points, total_points := total_points,
             club_contribution := msg, is_verified := true,
             is_duplicate := false }, db1)

/-- Embeds `StepService.sync_steps`. `today` is the ordinal of
    `datetime.now().date()`. -/
def syncSteps (today : Int) (db : DB) (user_id : String) (steps : Int)
    (date source device_signature : String) : Except PyError SyncResult × DB :=
  if ¬ validate_steps steps then
    (.error (.valueError ("Invalid steps count: " ++ toString steps)), db)
  else if ¬ validate_date_format date then
    (.error (.valueError ("Invalid date format: " ++ date)), db)
  else if ¬ validate_date_not_future today date then
    (.error (.valueError "Date cannot be in the future"), db)
  else
    match getStepLog db user_id date with
    | some existing_log =>
      (.ok { points_earned := existing_log.points.getD 0,
             total_points := userTotal db user_id,
             club_contribution := dupMessage,
             is_verified := true, is_duplicate := true }, db)
    | none =>
      let points := calculate_points steps
      let db1 := saveStepLog db user_id date steps points source device_signature
      match incrementUserPoints db1 user_id points with
      | .error e => (.error e, db1)
      | .ok db2 => syncTail db2 user_id points

/-! ## Streak computation (`StepService._calculate_current_streak`,
    `StepService._calculate_longest_streak`) -/

/-- The error raised by `datetime.strptime` on a malformed date string. -/
def strptimeError : PyError := .valueError "time data does not match format"

/-- The loop of `_calculate_current_streak`: walk the history, skip logs with
    a falsy (`None`/empty) date, raise on an unparseable date, count while
    each parsed date equals the expected one (which then steps back a day),
    stop at the first mismatch. -/
def currentStreakLoop : List LogDoc → Int → Nat → Except PyError Nat
  | [], _, streak => .ok streak
  | log :: rest, expected, streak =>
    match log.date with
    | none => currentStreakLoop rest expected streak
    | some s =>
      if s = "" then currentStreakLoop rest expected streak
      else
        match parseDateOrd s with
        | none => .error strptimeError
        | some d =>
          if d = expected then currentStreakLoop rest (expected - 1) (streak + 1)
          else .ok streak

/-- Embeds `StepService._calculate_current_streak`; `today` is the ordinal of
    `datetime.now().date()`. -/
def calcCurrentStreak (today : Int) (history : List LogDoc) : Except PyError Nat :=
  if history.isEmpty then .ok 0
  else currentStreakLoop history today 0

/-- The sort key of `_calculate_longest_streak`:
    `strptime(x.get("date", "1900-01-01"), "%Y-%m-%d")`, as a day ordinal. -/
def longestKeyOrd (log : LogDoc) : Option Int :=
  parseDateOrd (log.date.getD "1900-01-01")

/-- The pairwise scan of `_calculate_longest_streak` over the ordinals of the
    ascending-sorted logs: extend the running streak when consecutive dates
    are exactly one day apart (updating the maximum), else reset it to 1. -/
def longestScan : List Int → Int → Nat → Nat → Nat
  | [], _, _, max_streak => max_streak
  | curr :: rest, prev, current_streak, max_streak =>
    if curr - prev = 1 then
      longestScan rest curr (current_streak + 1) (Nat.max max_streak (current_streak + 1))
    else
      longestScan rest curr 1 max_streak

/-- The day ordinals of the history sorted ascending by the
    `_calculate_longest_streak` sort key. -/
def sortedOrds (history : List LogDoc) : List Int :=
  (sortByLe (fun a b => decide ((longestKeyOrd a).getD 0 ≤ (longestKeyOrd b).getD 0))
    history).map (fun l => (longestKeyOrd l).getD 0)

/-- Embeds `StepService._calculate_longest_streak`: 0 on an empty history, else sort
    by parsed date (raising `strptime`'s error if any present date is
    malformed, as the Python sort key does) and scan pairwise starting from
    `max_streak = current_streak = 1`. -/
def calcLongestStreak (history : List LogDoc) : Except PyError Nat :=
  if history.isEmpty then .ok 0
  else if history.all (fun l => (longestKeyOrd l).isSome) then
    match sortedOrds history with
    | [] => .ok 0
    | o :: rest => .ok (longestScan rest o 1 1)
  else .error strptimeError

/-! ## Statistics (`StepService.get_user_stats`) -/

/-- Two-decimal rounding of `round(x, 2)`, modelled on ℚ (the source value is
    a Python float; no claim in this development depends on the rounding of a
    nonzero average). -/
def round2 (q : ℚ) : ℚ := (⌊q * 100 + (1 : ℚ) / 2⌋ : ℚ) / 100

/-- The stats dictionary returned by `get_user_stats`. -/
structure Stats where
  user_id : String
  total_steps : Int
  total_points : Int
  average_daily_steps : ℚ
  max_daily_steps : Int
  active_days : Nat
  current_streak : Nat
  longest_streak : Nat
  deriving DecidableEq, Repr

/-- Embeds `max(log.get("steps", 0) for log in history)` (history nonempty). -/
def maxLogSteps (history : List LogDoc) : Int :=
  match history.map (fun l => l.steps.getD 0) with
  | [] => 0
  | x :: xs => xs.foldl max x

/-- Embeds `StepService.get_user_stats`: NotFound if the user record is absent;
    an all-zero stats record (with the stored total) if the fetched history
    is empty; otherwise aggregates plus the two streaks. Read-only. -/
def getUserStats (today : Int) (db : DB) (user_id : String) :
    Except PyError Stats :=
  match getUser db user_id with
  | none => .error (.valueError ("User " ++ user_id ++ " not found"))
  | some user =>
    let history := getUserStepHistory db user_id 365
    if history.isEmpty then
      .ok { user_id := user_id, total_steps := 0,
            total_points := user.total_points.getD 0,
            average_daily_steps := 0, max_daily_steps := 0,
            active_days := 0, current_streak := 0, longest_streak := 0 }
    else
      let total_steps : Int := (history.map (fun l => l.steps.getD 0)).foldl (· + ·) 0
      let max_steps := maxLogSteps history
      let active_days := history.length
      let average_steps : ℚ :=
        if 0 < active_days then (total_steps : ℚ) / (active_days : ℚ) else 0
      match calcCurrentStreak today history with
      | .error e => .error e
      | .ok current_streak =>
        match calcLongestStreak history with
        | .error e => .error e
        | .ok longest_streak =>
          .ok { user_id := user_id, total_steps := total_steps,
                total_points := user.total_points.getD 0,
                average_daily_steps := round2 average_steps,
                max_daily_steps := max_steps, active_days := active_days,
                current_streak := current_streak,
                longest_streak := longest_streak }

/-! ## API layer (`models/schemas.py`, `api/v1/endpoints/steps.py`) -/

/-- The `StepSyncResponse` Pydantic schema: its only fields are
    `points_earned`, `total_points`, `club_contribution`, `is_verified` and
    `synced_at` (a wall-clock timestamp, modelled as an `Int`). -/
structure StepSyncResponse where
  points_earned : Int
  total_points : Int
  club_contribution : String
  is_verified : Bool
  synced_at : Int
  deriving DecidableEq, Repr

/-- How the `/steps/sync` endpoint builds its response from the service
    result (`steps.py` lines 73-78): `is_verified` is read with default
    `True`, `synced_at` defaults to `datetime.now()` (the `now` parameter),
    and no other key of the service result is read. -/
def buildStepSyncResponse (now : Int) (result : SyncResult) : StepSyncResponse :=
  { points_earned := result.points_earned,
    total_points := result.total_points,
    club_contribution := result.club_contribution,
    is_verified := result.is_verified,
    synced_at := now }

/-- The log document written by a fresh sync. -/
def savedLogDoc (user_id date : String) (steps : Int)
    (source device_signature : String) : LogDoc :=
  { user_id := some user_id, date := some date, steps := some steps,
    points := some (calculate_points steps), source := some source,
    device_signature := some device_signature }

/-- A user document whose total has been bumped by `pts`
    (the result of `increment_user_points`). -/
def bumpUser (u : UserDoc) (pts : Int) : UserDoc :=
  { u with total_points := some (u.total_points.getD 0 + pts) }

/-- A club document whose total has been bumped by `pts`
    (the result of `increment_club_points`). -/
def bumpClub (c : ClubDoc) (pts : Int) : ClubDoc :=
  { c with total_points := some (c.total_points.getD 0 + pts) }

/-! ## Spec-side streak characterizations

The specification describes `currentStreak` as "the number of consecutive
calendar days with a log counting backward from today" and `longestStreak`
as the maximum run length of a pairwise scan over the ascending-sorted
dates. The following definitions transcribe those descriptions; the claim
theorems compare them with the code embeddings above. -/

/-- The parsed date ordinal of a log, `none` when the date field is absent
    or malformed. -/
def logOrd (log : LogDoc) : Option Int :=
  log.date.bind parseDateOrd

/-- Whether some log in the history falls on day `d`. -/
def hasLogOn (history : List LogDoc) (d : Int) : Bool :=
  history.any (fun log => logOrd log == some d)

/-- Count consecutive days with a log, walking backward from day `d`,
    with explicit fuel (the history length suffices: each counted day
    consumes a distinct log). -/
def backCountAux (history : List LogDoc) : Nat → Int → Nat
  | 0, _ => 0
  | fuel + 1, d =>
    if hasLogOn history d then backCountAux history fuel (d - 1) + 1 else 0

/-- The spec's `currentStreak`: consecutive days with a log counting
    backward from today. -/
def specCurrentStreak (today : Int) (history : List LogDoc) : Nat :=
  backCountAux history history.length today

/-- The spec's pairwise scan: the maximum run length over an ascending date
    list, where the current run (of length `run`) extends exactly when the
    next date is one day after `prev`, and otherwise restarts at 1. -/
def headRunMax : List Int → Int → Nat → Nat
  | [], _, run => run
  | c :: rest, prev, run =>
    if c - prev = 1 then headRunMax rest c (run + 1)
    else Nat.max run (headRunMax rest c 1)

/-- The spec's `longestStreak` over a sorted date list: 0 when empty, else
    the maximum run length of the pairwise scan. -/
def specLongestStreak : List Int → Nat
  | [] => 0
  | a :: rest => headRunMax rest a 1

/-! ## Helper lemmas -/

theorem lookupDoc_setDoc_self {α : Type} (l : List (String × α)) (k : String) (v : α) :
    lookupDoc (setDoc l k v) k = some v := by
  induction l with
  | nil => simp [setDoc, lookupDoc]
  | cons hd tl ih =>
    obtain ⟨k', w⟩ := hd
    by_cases h : k' = k
    · simp [setDoc, lookupDoc, h]
    · simp [setDoc, lookupDoc, h, ih]

theorem lookupDoc_setDoc_ne {α : Type} (l : List (String × α)) (k k' : String) (v : α)
    (h : k ≠ k') : lookupDoc (setDoc l k v) k' = lookupDoc l k' := by
  induction l with
  | nil => simp [setDoc, lookupDoc, h]
  | cons hd tl ih =>
    obtain ⟨k'', w⟩ := hd
    by_cases h2 : k'' = k
    · subst h2; simp [setDoc, lookupDoc, h]
    · simp [setDoc, lookupDoc, h2, ih]

theorem ne_of_data_head {p q : String} {a b : Char} {l₁ l₂ : List Char}
    (hp : p.data = a :: l₁) (hq : q.data = b :: l₂) (hab : a ≠ b) : p ≠ q := by
  intro h
  rw [h, hq] at hp
  injection hp with h1 h2
  exact hab h1.symm

/-- The "user not found" message begins with a different character than each
    of the three validation error messages, so the four are pairwise
    distinguishable to a caller. -/
theorem userNotFound_msg_distinct (user_id : String) (steps : Int) (date : String) :
    ("User " ++ user_id ++ " not found") ≠ ("Invalid steps count: " ++ toString steps) ∧
    ("User " ++ user_id ++ " not found") ≠ ("Invalid date format: " ++ date) ∧
    ("User " ++ user_id ++ " not found") ≠ "Date cannot be in the future" := by
  have hp : ("User " ++ user_id ++ " not found").data =
      'U' :: ("ser ".data ++ user_id.data ++ " not found".data) := by
    rw [String.data_append, String.data_append]
    rfl
  have hq1 : ("Invalid steps count: " ++ toString steps).data =
      'I' :: ("nvalid steps count: ".data ++ (toString steps).data) := by
    rw [String.data_append]
    rfl
  have hq2 : ("Invalid date format: " ++ date).data =
      'I' :: ("nvalid date format: ".data ++ date.data) := by
    rw [String.data_append]
    rfl
  exact ⟨ne_of_data_head hp hq1 (by decide), ne_of_data_head hp hq2 (by decide),
    ne_of_data_head hp rfl (by decide)⟩

/-! ## Claim theorems -/

/-- C2: `calculate_points` is floor division by 1000 on non-negative input,
    0 on negative input; 5432 ↦ 5, 999 ↦ 0, and every `0 ≤ s < 1000` ↦ 0. -/
theorem calculate_points_spec (s : Int) :
    (0 ≤ s → calculate_points s = ⌊(s : ℚ) / 1000⌋) ∧
    (s < 0 → calculate_points s = 0) ∧
    calculate_points 5432 = 5 ∧ calculate_points 999 = 0 ∧
    (0 ≤ s → s < 1000 → calculate_points s = 0) := by
  have hfloor : (⌊((s : ℚ)) / (1000 : ℚ)⌋ : Int) = s / 1000 := by
    have := Rat.floor_intCast_div_natCast s 1000
    simpa using this
  refine ⟨?_, ?_, by decide, by decide, ?_⟩
  · intro hs
    rw [calculate_points, if_neg (by omega), STEPS_PER_POINT,
      Int.fdiv_eq_ediv s (by norm_num), hfloor]
  · intro hs
    rw [calculate_points, if_pos hs]
  · intro hs hlt
    rw [calculate_points, if_neg (by omega), STEPS_PER_POINT,
      Int.fdiv_eq_ediv s (by norm_num)]
    omega

/-- C2 witness. -/
theorem calculate_points_spec_witness :
    calculate_points 5432 = ⌊((5432 : Int) : ℚ) / 1000⌋ ∧ calculate_points (-7) = 0 ∧
    calculate_points 999 = 0 :=
  ⟨(calculate_points_spec 5432).1 (by decide),
   (calculate_points_spec (-7)).2.1 (by decide),
   (calculate_points_spec 999).2.2.2.2 (by decide) (by decide)⟩

/-- C3: invalid steps, a malformed date, and a future date each make
    `sync_steps` fail with the corresponding `ValueError` and leave the
    database untouched; the three checks run in order (steps, then format,
    then future) and short-circuit, and `validate_steps` rejects exactly the
    inputs outside `[0, 100000]` while `validate_date_not_future` rejects
    exactly the well-formed dates strictly after today. -/
theorem sync_validation_spec (today : Int) (db : DB) (user_id : String) (steps : Int)
    (date source device_signature : String) :
    (validate_steps steps = false →
      syncSteps today db user_id steps date source device_signature =
        (.error (.valueError ("Invalid steps count: " ++ toString steps)), db)) ∧
    (validate_steps steps = true → validate_date_format date = false →
      syncSteps today db user_id steps date source device_signature =
        (.error (.valueError ("Invalid date format: " ++ date)), db)) ∧
    (validate_steps steps = true → validate_date_format date = true →
      validate_date_not_future today date = false →
      syncSteps today db user_id steps date source device_signature =
        (.error (.valueError "Date cannot be in the future"), db)) ∧
    (validate_steps steps = false ↔ steps < 0 ∨ 100000 < steps) ∧
    (validate_date_format date = true →
      (validate_date_not_future today date = false ↔
        ∃ d, parseDateOrd date = some d ∧ today < d)) := by
  refine ⟨?_, ?_, ?_, ?_, ?_⟩
  · intro h
    simp [syncSteps, h]
  · intro h1 h2
    simp [syncSteps, h1, h2]
  · intro h1 h2 h3
    simp [syncSteps, h1, h2, h3]
  · constructor
    · intro h
      simp [validate_steps, MIN_STEPS, MAX_STEPS, MAX_DAILY_STEPS] at h
      omega
    · intro h
      simp [validate_steps, MIN_STEPS, MAX_STEPS, MAX_DAILY_STEPS]
      omega
  · intro hfmt
    rw [validate_date_format] at hfmt
    obtain ⟨p, hp⟩ := Option.isSome_iff_exists.mp hfmt
    have hord : parseDateOrd date = some (daysFromCivil p.1 p.2.1 p.2.2) := by
      rw [parseDateOrd, hp]
      rfl
    constructor
    · intro h
      refine ⟨daysFromCivil p.1 p.2.1 p.2.2, hord, ?_⟩
      rw [validate_date_not_future, hord] at h
      simpa using h
    · intro ⟨d, hd, hlt⟩
      rw [validate_date_not_future, hd]
      simpa using hlt

/-- C3 witness. -/
theorem sync_validation_spec_witness :
    syncSteps 0 {} "u1" (-5) "2025-01-10" "healthkit" "d" =
      (.error (.valueError ("Invalid steps count: " ++ toString (-5 : Int))), {}) ∧
    syncSteps 0 {} "u1" 200000 "2025-01-10" "healthkit" "d" =
      (.error (.valueError ("Invalid steps count: " ++ toString (200000 : Int))), {}) ∧
    syncSteps 0 {} "u1" 5000 "2025-13-01" "healthkit" "d" =
      (.error (.valueError ("Invalid date format: " ++ "2025-13-01")), {}) ∧
    syncSteps 20000 {} "u1" 5000 "2025-01-10" "healthkit" "d" =
      (.error (.valueError "Date cannot be in the future"), {}) :=
  ⟨(sync_validation_spec 0 {} "u1" (-5) "2025-01-10" "healthkit" "d").1 (by decide),
   (sync_validation_spec 0 {} "u1" 200000 "2025-01-10" "healthkit" "d").1 (by decide),
   (sync_validation_spec 0 {} "u1" 5000 "2025-13-01" "healthkit" "d").2.1
     (by decide) (by decide),
   (sync_validation_spec 20000 {} "u1" 5000 "2025-01-10" "healthkit" "d").2.2.1
     (by decide) (by decide) (by decide)⟩

/-- C10: on a duplicate sync whose user record is absent, `sync_steps` still
    succeeds, reporting the stored points with `total_points = 0` and the
    duplicate flag set, without touching the database. -/
theorem sync_duplicate_missing_user (today : Int) (db : DB) (user_id : String)
    (steps : Int) (date source device_signature : String) (log : LogDoc)
    (h1 : validate_steps steps = true) (h2 : validate_date_format date = true)
    (h3 : validate_date_not_future today date = true)
    (hlog : getStepLog db user_id date = some log)
    (huser : getUser db user_id = none) :
    syncSteps today db user_id steps date source device_signature =
      (.ok { points_earned := log.points.getD 0, total_points := 0,
             club_contribution := dupMessage, is_verified := true,
             is_duplicate := true }, db) := by
  simp [syncSteps, h1, h2, h3, hlog, userTotal, huser]

/-- C10 witness. -/
theorem sync_duplicate_missing_user_witness :
    syncSteps 20098 { steps := [("u1_2025-01-10", { points := some 5 })] } "u1" 5432
      "2025-01-10" "healthkit" "d" =
      (.ok { points_earned := 5, total_points := 0, club_contribution := dupMessage,
             is_verified := true, is_duplicate := true },
       { steps := [("u1_2025-01-10", { points := some 5 })] }) :=
  sync_duplicate_missing_user 20098 _ "u1" 5432 "2025-01-10" "healthkit" "d"
    { points := some 5 } (by decide) (by decide) (by decide) (by decide) (by decide)

/-- C9: when the user record cannot be found after the step log has been
    written and the user total incremented, the remainder of `sync_steps`
    fails with the "user not found" `ValueError` — whose message differs from
    every validation-error message, so the failure is distinguishable from
    InvalidInput — and performs no further write, so the already-committed
    step log and point increment are not rolled back. -/
theorem syncTail_missing_user_no_rollback (db : DB) (user_id : String)
    (points steps : Int) (date : String) (huser : getUser db user_id = none) :
    syncTail db user_id points =
      (.error (.valueError ("User " ++ user_id ++ " not found")), db) ∧
    ("User " ++ user_id ++ " not found") ≠ ("Invalid steps count: " ++ toString steps) ∧
    ("User " ++ user_id ++ " not found") ≠ ("Invalid date format: " ++ date) ∧
    ("User " ++ user_id ++ " not found") ≠ "Date cannot be in the future" := by
  refine ⟨?_, userNotFound_msg_distinct user_id steps date⟩
  simp [syncTail, huser]

/-- C9 witness: a state that already holds the step log and the incremented
    total but no user record; the tail fails and the state survives intact. -/
theorem syncTail_missing_user_no_rollback_witness :
    syncTail { steps := [("u1_2025-01-10", { points := some 5 })] } "u1" 5 =
      (.error (.valueError ("User " ++ "u1" ++ " not found")),
       { steps := [("u1_2025-01-10", { points := some 5 })] }) ∧
    ("User " ++ "u1" ++ " not found") ≠ ("Invalid steps count: " ++ toString (5432 : Int)) ∧
    ("User " ++ "u1" ++ " not found") ≠ ("Invalid date format: " ++ "2025-01-10") ∧
    ("User " ++ "u1" ++ " not found") ≠ "Date cannot be in the future" :=
  syncTail_missing_user_no_rollback
    { steps := [("u1_2025-01-10", { points := some 5 })] } "u1" 5 5432 "2025-01-10"
    (by decide)

/-- C8 counterexample: two service results that differ only in their
    `is_duplicate` flag produce byte-for-byte identical `StepSyncResponse`
    values — the API response carries no `isDuplicate` field, so a caller
    cannot recover the flag from the response. -/
theorem stepSyncResponse_no_duplicate_flag :
    ({ points_earned := 5, total_points := 5, club_contribution := "m",
       is_verified := true, is_duplicate := false } : SyncResult).is_duplicate = false ∧
    ({ points_earned := 5, total_points := 5, club_contribution := "m",
       is_verified := true, is_duplicate := true } : SyncResult).is_duplicate = true ∧
    buildStepSyncResponse 0
        { points_earned := 5, total_points := 5, club_contribution := "m",
          is_verified := true, is_duplicate := false } =
      buildStepSyncResponse 0
        { points_earned := 5, total_points := 5, club_contribution := "m",
          is_verified := true, is_duplicate := true } :=
  ⟨rfl, rfl, rfl⟩

/-- C8 (amended): the sync response carries `points_earned`, `total_points`,
    `club_contribution`, `is_verified` and a timestamp, copied from the
    service result; the service result's `is_duplicate` flag is not part of
    the response, which is therefore independent of it. -/
theorem stepSyncResponse_fields (now : Int) (result : SyncResult) (b : Bool) :
    buildStepSyncResponse now result =
      { points_earned := result.points_earned, total_points := result.total_points,
        club_contribution := result.club_contribution,
        is_verified := result.is_verified, synced_at := now } ∧
    buildStepSyncResponse now { result with is_duplicate := b } =
      buildStepSyncResponse now result :=
  ⟨rfl, rfl⟩

/-- C4 counterexample: for a user record that exists with zero step logs,
    `get_user_stats` returns an empty-stats success, not a NotFound failure. -/
theorem getUserStats_zero_logs_is_success :
    getUserStats 0 { users := [("u1", { total_points := some 7 })] } "u1" =
      .ok { user_id := "u1", total_steps := 0, total_points := 7,
            average_daily_steps := 0, max_daily_steps := 0, active_days := 0,
            current_streak := 0, longest_streak := 0 } := rfl

/-- C4 (amended): `get_user_stats` fails with the NotFound `ValueError`
    exactly when the user record is absent; a user that exists with zero
    fetched logs is an empty-stats success. -/
theorem getUserStats_notFound_iff_user_absent (today : Int) (db : DB)
    (user_id : String) :
    (getUser db user_id = none →
      getUserStats today db user_id =
        .error (.valueError ("User " ++ user_id ++ " not found"))) ∧
    (∀ u, getUser db user_id = some u → getUserStepHistory db user_id 365 = [] →
      getUserStats today db user_id =
        .ok { user_id := user_id, total_steps := 0,
              total_points := u.total_points.getD 0, average_daily_steps := 0,
              max_daily_steps := 0, active_days := 0, current_streak := 0,
              longest_streak := 0 }) := by
  constructor
  · intro h
    simp [getUserStats, h]
  · intro u hu hh
    simp [getUserStats, hu, hh]

/-- C4 witness. -/
theorem getUserStats_notFound_iff_user_absent_witness :
    getUserStats 0 {} "u1" = .error (.valueError ("User " ++ "u1" ++ " not found")) ∧
    getUserStats 0 { users := [("u2", { total_points := some 3 })] } "u2" =
      .ok { user_id := "u2", total_steps := 0, total_points := 3,
            average_daily_steps := 0, max_daily_steps := 0, active_days := 0,
            current_streak := 0, longest_streak := 0 } :=
  ⟨(getUserStats_notFound_iff_user_absent 0 {} "u1").1 (by decide),
   (getUserStats_notFound_iff_user_absent 0
      { users := [("u2", { total_points := some 3 })] } "u2").2
      { total_points := some 3 } (by decide) (by decide)⟩

/-- C5: a user record with zero fetched step logs yields the empty-stats
    success: all aggregates and both streaks are zero, and `total_points` is
    the stored user total, not recomputed from logs. -/
theorem getUserStats_empty_history (today : Int) (db : DB) (user_id : String)
    (u : UserDoc) (hu : getUser db user_id = some u)
    (hh : getUserStepHistory db user_id 365 = []) :
    getUserStats today db user_id =
      .ok { user_id := user_id, total_steps := 0,
            total_points := u.total_points.getD 0, average_daily_steps := 0,
            max_daily_steps := 0, active_days := 0, current_streak := 0,
            longest_streak := 0 } := by
  simp [getUserStats, hu, hh]

/-- C5 witness: the stored total (42) is reported even though no logs exist. -/
theorem getUserStats_empty_history_witness :
    getUserStats 0 { users := [("u1", { total_points := some 42 })] } "u1" =
      .ok { user_id := "u1", total_steps := 0, total_points := 42,
            average_daily_steps := 0, max_daily_steps := 0, active_days := 0,
            current_streak := 0, longest_streak := 0 } :=
  getUserStats_empty_history 0 { users := [("u1", { total_points := some 42 })] }
    "u1" { total_points := some 42 } (by decide) (by decide)

/-- Helper: the duplicate path of `sync_steps` — an existing log short-circuits
    the pipeline into a read-only response echoing the stored points. -/
theorem sync_duplicate_path (today : Int) (db : DB) (user_id : String) (steps : Int)
    (date source device_signature : String) (log : LogDoc)
    (h1 : validate_steps steps = true) (h2 : validate_date_format date = true)
    (h3 : validate_date_not_future today date = true)
    (hlog : getStepLog db user_id date = some log) :
    syncSteps today db user_id steps date source device_signature =
      (.ok { points_earned := log.points.getD 0,
             total_points := userTotal db user_id,
             club_contribution := dupMessage, is_verified := true,
             is_duplicate := true }, db) := by
  simp [syncSteps, h1, h2, h3, hlog]

/-- Helper: the fresh path of `sync_steps` — with no prior log, an existing
    user and a resolvable club affiliation, the sync writes the log,
    increments the user (and, if affiliated, the club) and reports the
    user's post-increment total. -/
theorem sync_fresh_path (today : Int) (db : DB) (user_id : String) (steps : Int)
    (date source device_signature : String) (u : UserDoc)
    (h1 : validate_steps steps = true) (h2 : validate_date_format date = true)
    (h3 : validate_date_not_future today date = true)
    (hnolog : getStepLog db user_id date = none)
    (hu : getUser db user_id = some u)
    (hclub : strTruthy u.club_id = false ∨
      (getClub db (u.club_id.getD "")).isSome = true) :
    ∃ (s1 : DB) (msg : String),
      syncSteps today db user_id steps date source device_signature =
        (.ok { points_earned := calculate_points steps,
               total_points := u.total_points.getD 0 + calculate_points steps,
               club_contribution := msg, is_verified := true,
               is_duplicate := false }, s1) ∧
      getStepLog s1 user_id date =
        some (savedLogDoc user_id date steps source device_signature) ∧
      userTotal s1 user_id = u.total_points.getD 0 + calculate_points steps := by
  have hu' : lookupDoc db.users user_id = some u := hu
  have hnolog' : lookupDoc db.steps (stepDocId user_id date) = none := hnolog
  have hul : lookupDoc
      (setDoc db.users user_id (bumpUser u (calculate_points steps))) user_id =
      some (bumpUser u (calculate_points steps)) :=
    lookupDoc_setDoc_self ..
  have hul2 := hul
  simp only [bumpUser] at hul2
  have hsl : lookupDoc
      (setDoc db.steps (stepDocId user_id date)
        (savedLogDoc user_id date steps source device_signature))
      (stepDocId user_id date) =
      some (savedLogDoc user_id date steps source device_signature) :=
    lookupDoc_setDoc_self ..
  by_cases htr : strTruthy u.club_id = true
  · have hsome : (getClub db (u.club_id.getD "")).isSome = true := by
      rcases hclub with hf | hs
      · rw [htr] at hf; exact absurd hf (by simp)
      · exact hs
    obtain ⟨c, hc⟩ := Option.isSome_iff_exists.mp hsome
    have hc' : lookupDoc db.clubs (u.club_id.getD "") = some c := hc
    refine ⟨⟨setDoc db.users user_id (bumpUser u (calculate_points steps)),
      setDoc db.clubs (u.club_id.getD "") (bumpClub c (calculate_points steps)),
      setDoc db.steps (stepDocId user_id date)
        (savedLogDoc user_id date steps source device_signature)⟩,
      calculate_club_contribution (calculate_points steps)
        (c.total_points.getD 0 + calculate_points steps), ?_, ?_, ?_⟩
    · simp [syncSteps, h1, h2, h3, hnolog, hnolog', saveStepLog, incrementUserPoints,
        syncTail, getUser, getClub, getStepLog, userTotal, hu', hul, hul2, hsl, htr,
        incrementClubPoints, hc', savedLogDoc, bumpUser, bumpClub,
        lookupDoc_setDoc_self]
    · exact lookupDoc_setDoc_self ..
    · simp only [userTotal, getUser]
      rw [hul]
      simp [bumpUser]
  · have htr' : strTruthy u.club_id = false := by
      revert htr; cases strTruthy u.club_id <;> simp
    refine ⟨⟨setDoc db.users user_id (bumpUser u (calculate_points steps)),
      db.clubs, setDoc db.steps (stepDocId user_id date)
        (savedLogDoc user_id date steps source device_signature)⟩,
      calculate_club_contribution (calculate_points steps) 0, ?_, ?_, ?_⟩
    · simp [syncSteps, h1, h2, h3, hnolog, hnolog', saveStepLog, incrementUserPoints,
        syncTail, getUser, getStepLog, userTotal, hu', hul, hul2, hsl, htr',
        savedLogDoc, bumpUser]
    · exact lookupDoc_setDoc_self ..
    · simp only [userTotal, getUser]
      rw [hul]
      simp [bumpUser]

/-- C1: (i) when a log already exists for `(user_id, date)`, `sync_steps`
    echoes the stored points with the duplicate flag and performs no write;
    (ii) hence a fresh sync followed by an identical sync credits the user
    exactly once: both calls report the same `points_earned`, the second is
    flagged duplicate and leaves the state of the first call untouched, and
    the user's total grew once, by the first call's `points_earned`. -/
theorem sync_idempotent (today : Int) (db : DB) (user_id : String) (steps : Int)
    (date source device_signature : String) :
    (∀ log, validate_steps steps = true → validate_date_format date = true →
      validate_date_not_future today date = true →
      getStepLog db user_id date = some log →
      syncSteps today db user_id steps date source device_signature =
        (.ok { points_earned := log.points.getD 0,
               total_points := userTotal db user_id,
               club_contribution := dupMessage, is_verified := true,
               is_duplicate := true }, db)) ∧
    (∀ u, validate_steps steps = true → validate_date_format date = true →
      validate_date_not_future today date = true →
      getStepLog db user_id date = none →
      getUser db user_id = some u →
      (strTruthy u.club_id = false ∨
        (getClub db (u.club_id.getD "")).isSome = true) →
      ∃ (s1 : DB) (r1 r2 : SyncResult),
        syncSteps today db user_id steps date source device_signature = (.ok r1, s1) ∧
        syncSteps today s1 user_id steps date source device_signature = (.ok r2, s1) ∧
        r1.is_duplicate = false ∧ r2.is_duplicate = true ∧
        r2.points_earned = r1.points_earned ∧
        r1.points_earned = calculate_points steps ∧
        userTotal s1 user_id = userTotal db user_id + r1.points_earned) := by
  constructor
  · intro log h1 h2 h3 hlog
    exact sync_duplicate_path today db user_id steps date source device_signature
      log h1 h2 h3 hlog
  · intro u h1 h2 h3 hnolog hu hclub
    obtain ⟨s1, msg, hrun, hsaved, htot⟩ :=
      sync_fresh_path today db user_id steps date source device_signature u
        h1 h2 h3 hnolog hu hclub
    have hdup := sync_duplicate_path today s1 user_id steps date source
      device_signature _ h1 h2 h3 hsaved
    refine ⟨s1, _, _, hrun, hdup, rfl, rfl, ?_, rfl, ?_⟩
    · simp [savedLogDoc]
    · rw [htot, userTotal, hu]
      simp

/-- C1 witness: a fresh user syncs 5432 steps, then repeats the identical
    call; the duplicate branch is also exercised directly. -/
theorem sync_idempotent_witness :
    (syncSteps 20098 { users := [("u1", { total_points := some 5 })], steps := [("u1_2025-01-10", { points := some 5 })] } "u1" 5432 "2025-01-10" "healthkit" "d" =
      (.ok { points_earned := 5, total_points := 5, club_contribution := dupMessage, is_verified := true, is_duplicate := true },
       { users := [("u1", { total_points := some 5 })], steps := [("u1_2025-01-10", { points := some 5 })] })) ∧
    ∃ (s1 : DB) (r1 r2 : SyncResult),
      syncSteps 20098 { users := [("u1", { total_points := some 0 })] } "u1" 5432 "2025-01-10" "healthkit" "d" = (.ok r1, s1) ∧
      syncSteps 20098 s1 "u1" 5432 "2025-01-10" "healthkit" "d" = (.ok r2, s1) ∧
      r1.is_duplicate = false ∧ r2.is_duplicate = true ∧
      r2.points_earned = r1.points_earned ∧
      r1.points_earned = calculate_points 5432 ∧
      userTotal s1 "u1" =
        userTotal { users := [("u1", { total_points := some 0 })] } "u1" +
          r1.points_earned := by
  constructor
  · exact (sync_idempotent 20098 _ "u1" 5432 "2025-01-10" "healthkit" "d").1
      { points := some 5 } (by decide) (by decide) (by decide) (by decide)
  · exact (sync_idempotent 20098 _ "u1" 5432 "2025-01-10" "healthkit" "d").2
      { total_points := some 0 } (by decide) (by decide) (by decide) (by decide)
      (by decide) (Or.inl (by decide))

/-- Helper: a log on day `d0` never matches a backward count probing only
    days strictly before `d0`, so it can be dropped from the history. -/
theorem backCountAux_cons_skip (log : LogDoc) (rest : List LogDoc) (d0 : Int)
    (h0 : logOrd log = some d0) (fuel : Nat) :
    ∀ d : Int, d < d0 →
      backCountAux (log :: rest) fuel d = backCountAux rest fuel d := by
  induction fuel with
  | zero => intro d hd; simp [backCountAux]
  | succ n ih =>
    intro d hd
    have hno : (logOrd log == some d) = false := by
      simp [h0]
      omega
    rw [backCountAux, backCountAux, hasLogOn, List.any_cons, hno, Bool.false_or,
      ← hasLogOn, ih (d - 1) (by omega)]

/-- Helper: on a strictly descending, fully dated history whose dates are all
    at most `expected`, the walk of `_calculate_current_streak` computes the
    backward day count. -/
theorem currentStreakLoop_eq (history : List LogDoc) :
    ∀ (dates : List Int) (expected : Int) (streak : Nat),
      history.map logOrd = dates.map some →
      dates.Pairwise (· > ·) →
      (∀ d ∈ dates, d ≤ expected) →
      currentStreakLoop history expected streak =
        .ok (streak + backCountAux history history.length expected) := by
  induction history with
  | nil =>
    intro dates expected streak hpar hsorted hle
    simp [currentStreakLoop, backCountAux]
  | cons log rest ih =>
    intro dates expected streak hpar hsorted hle
    cases dates with
    | nil => simp at hpar
    | cons d0 ds =>
      rw [List.map_cons, List.map_cons] at hpar
      injection hpar with h0 hrest
      obtain ⟨s, hs, hps⟩ := Option.bind_eq_some.mp h0
      have hsne : s ≠ "" := by
        intro he
        rw [he] at hps
        exact Option.noConfusion hps
      have hd0le : d0 ≤ expected := hle d0 (by simp)
      have hdlt : ∀ d ∈ ds, d < d0 := fun d hd =>
        (List.pairwise_cons.mp hsorted).1 d hd
      simp only [currentStreakLoop, hs, hps, if_neg hsne]
      by_cases hde : d0 = expected
      · subst hde
        rw [if_pos rfl]
        rw [ih ds (d0 - 1) (streak + 1) hrest (List.pairwise_cons.mp hsorted).2
          (fun d hd => by have := hdlt d hd; omega)]
        have hyes : hasLogOn (log :: rest) d0 = true := by
          simp [hasLogOn, List.any_cons, h0]
        rw [List.length_cons, backCountAux, hyes, if_pos rfl,
          backCountAux_cons_skip log rest d0 h0 rest.length (d0 - 1) (by omega)]
        congr 1
        omega
      · rw [if_neg hde]
        have hno : hasLogOn (log :: rest) expected = false := by
          rw [hasLogOn, List.any_cons, Bool.or_eq_false_iff]
          constructor
          · simp [h0]
            exact hde
          · rw [List.any_eq_false]
            intro l hl
            have hmem : logOrd l ∈ ds.map some := by
              rw [← hrest]
              exact List.mem_map_of_mem logOrd hl
            obtain ⟨d, hdmem, hds⟩ := List.mem_map.mp hmem
            have hlt := hdlt d hdmem
            simp [← hds]
            omega
        rw [List.length_cons, backCountAux, hno]
        simp

/-- C6: on a newest-first history of distinct, well-formed, non-future
    dates, `_calculate_current_streak` returns exactly the number of
    consecutive calendar days with a log counting backward from today
    (so a missing log for today yields 0 even if yesterday has one). -/
theorem current_streak_backward_count (today : Int) (history : List LogDoc)
    (dates : List Int) (hpar : history.map logOrd = dates.map some)
    (hsorted : dates.Pairwise (· > ·)) (hle : ∀ d ∈ dates, d ≤ today) :
    calcCurrentStreak today history = .ok (specCurrentStreak today history) := by
  cases history with
  | nil => simp [calcCurrentStreak, specCurrentStreak, backCountAux]
  | cons log rest =>
    rw [calcCurrentStreak, if_neg (by simp),
      currentStreakLoop_eq (log :: rest) dates today 0 hpar hsorted hle,
      specCurrentStreak]
    simp

/-- C6 witness: logs for 2025-01-10 (= day 20098), the two days before, then
    a gap and one earlier log. With today = 20098 the streak is 3; with
    today = 20099 (no log for today) it is 0 although 20098 has a log. -/
theorem current_streak_backward_count_witness :
    calcCurrentStreak 20098 [{ date := some "2025-01-10" }, { date := some "2025-01-09" }, { date := some "2025-01-08" }, { date := some "2025-01-01" }] =
      .ok (specCurrentStreak 20098 [{ date := some "2025-01-10" }, { date := some "2025-01-09" }, { date := some "2025-01-08" }, { date := some "2025-01-01" }]) ∧
    specCurrentStreak 20098 [{ date := some "2025-01-10" }, { date := some "2025-01-09" }, { date := some "2025-01-08" }, { date := some "2025-01-01" }] = 3 ∧
    calcCurrentStreak 20099 [{ date := some "2025-01-10" }, { date := some "2025-01-09" }, { date := some "2025-01-08" }, { date := some "2025-01-01" }] =
      .ok (specCurrentStreak 20099 [{ date := some "2025-01-10" }, { date := some "2025-01-09" }, { date := some "2025-01-08" }, { date := some "2025-01-01" }]) ∧
    specCurrentStreak 20099 [{ date := some "2025-01-10" }, { date := some "2025-01-09" }, { date := some "2025-01-08" }, { date := some "2025-01-01" }] = 0 :=
  ⟨current_streak_backward_count 20098 _ [20098, 20097, 20096, 20089]
      (by decide) (by decide) (by decide),
   by decide,
   current_streak_backward_count 20099 _ [20098, 20097, 20096, 20089]
      (by decide) (by decide) (by decide),
   by decide⟩

/-- Helper: the pairwise-scan maximum is at least the running prefix run. -/
theorem headRunMax_ge (rest : List Int) : ∀ (prev : Int) (run : Nat),
    run ≤ headRunMax rest prev run := by
  induction rest with
  | nil => intro prev run; simp [headRunMax]
  | cons c t ih =>
    intro prev run
    rw [headRunMax]
    by_cases hc : c - prev = 1
    · rw [if_pos hc]
      exact Nat.le_trans (Nat.le_succ run) (ih c (run + 1))
    · rw [if_neg hc]
      exact Nat.le_max_left ..

/-- Helper: the accumulator loop of `_calculate_longest_streak` computes the
    maximum of the accumulated best and the spec's pairwise-scan maximum. -/
theorem longestScan_eq (rest : List Int) :
    ∀ (prev : Int) (cur maxS : Nat), 1 ≤ cur → cur ≤ maxS →
    longestScan rest prev cur maxS = Nat.max maxS (headRunMax rest prev cur) := by
  induction rest with
  | nil =>
    intro prev cur maxS h1 h2
    rw [longestScan, headRunMax]
    simp only [Nat.max_def]
    split_ifs <;> omega
  | cons c t ih =>
    intro prev cur maxS h1 h2
    rw [longestScan, headRunMax]
    by_cases hc : c - prev = 1
    · rw [if_pos hc, if_pos hc,
        ih c (cur + 1) (Nat.max maxS (cur + 1)) (by omega) (Nat.le_max_right ..)]
      have hge := headRunMax_ge t c (cur + 1)
      simp only [Nat.max_def]
      split_ifs <;> omega
    · rw [if_neg hc, if_neg hc, ih c 1 maxS (Nat.le_refl 1) (Nat.le_trans h1 h2)]
      simp only [Nat.max_def]
      split_ifs <;> omega

theorem insertByLe_length {α : Type} (le : α → α → Bool) (x : α) (l : List α) :
    (insertByLe le x l).length = l.length + 1 := by
  induction l with
  | nil => simp [insertByLe]
  | cons y ys ih =>
    rw [insertByLe]
    by_cases h : le y x
    · rw [if_pos h]
      simp [ih]
    · rw [if_neg h]
      simp

theorem sortByLe_length {α : Type} (le : α → α → Bool) (l : List α) :
    (sortByLe le l).length = l.length := by
  have haux : ∀ (l acc : List α),
      (l.foldl (fun acc x => insertByLe le x acc) acc).length =
        acc.length + l.length := by
    intro l
    induction l with
    | nil => intro acc; simp
    | cons x xs ih =>
      intro acc
      rw [List.foldl_cons, ih, insertByLe_length, List.length_cons]
      omega
  rw [sortByLe, haux]
  simp

/-- C7: on a history of distinct well-formed dates,
    `_calculate_longest_streak` equals the spec's maximum run length of the
    pairwise scan over the ascending-sorted dates; it is 0 exactly on the
    empty history and at least 1 on any non-empty one. -/
theorem longest_streak_max_run (history : List LogDoc)
    (hvalid : ∀ log ∈ history, (longestKeyOrd log).isSome = true) :
    calcLongestStreak history = .ok (specLongestStreak (sortedOrds history)) ∧
    (history = [] → calcLongestStreak history = .ok 0) ∧
    (history ≠ [] → ∃ n, calcLongestStreak history = .ok n ∧ 1 ≤ n) := by
  have hall : history.all (fun l => (longestKeyOrd l).isSome) = true :=
    List.all_eq_true.mpr (fun l hl => by simp [hvalid l hl])
  by_cases hemp : history = []
  · subst hemp
    refine ⟨?_, fun h => rfl, fun h => absurd rfl h⟩
    rw [calcLongestStreak]
    simp [sortedOrds, sortByLe, specLongestStreak]
  · have hne : history.isEmpty = false := by
      cases history with
      | nil => exact absurd rfl hemp
      | cons a t => rfl
    have hlen : (sortedOrds history).length = history.length := by
      rw [sortedOrds, List.length_map, sortByLe_length]
    have hmain : calcLongestStreak history =
        .ok (specLongestStreak (sortedOrds history)) := by
      rw [calcLongestStreak, if_neg (by simp [hne]), if_pos hall]
      cases hso : sortedOrds history with
      | nil => rfl
      | cons o rest =>
        show Except.ok (longestScan rest o 1 1) =
          Except.ok (specLongestStreak (o :: rest))
        rw [longestScan_eq rest o 1 1 (Nat.le_refl 1) (Nat.le_refl 1),
          specLongestStreak]
        have habs : Nat.max 1 (headRunMax rest o 1) = headRunMax rest o 1 := by
          have := headRunMax_ge rest o 1
          simp only [Nat.max_def]
          split_ifs <;> omega
        rw [habs]
    refine ⟨hmain, fun h => absurd h hemp, fun _ => ?_⟩
    refine ⟨specLongestStreak (sortedOrds history), hmain, ?_⟩
    cases hso : sortedOrds history with
    | nil =>
      rw [hso] at hlen
      cases history with
      | nil => exact absurd rfl hemp
      | cons a t => simp at hlen
    | cons o rest =>
      rw [specLongestStreak]
      exact Nat.le_trans (Nat.le_refl 1) (headRunMax_ge rest o 1)

/-- C7 witness: logs on five consecutive days, a break, then two consecutive
    days; the longest streak is 5, the empty history gives 0. -/
theorem longest_streak_max_run_witness :
    calcLongestStreak [{ date := some "2025-01-10" }, { date := some "2025-01-09" }, { date := some "2025-01-05" }, { date := some "2025-01-04" }, { date := some "2025-01-03" }, { date := some "2025-01-02" }, { date := some "2025-01-01" }] =
      .ok (specLongestStreak (sortedOrds [{ date := some "2025-01-10" }, { date := some "2025-01-09" }, { date := some "2025-01-05" }, { date := some "2025-01-04" }, { date := some "2025-01-03" }, { date := some "2025-01-02" }, { date := some "2025-01-01" }])) ∧
    specLongestStreak (sortedOrds [{ date := some "2025-01-10" }, { date := some "2025-01-09" }, { date := some "2025-01-05" }, { date := some "2025-01-04" }, { date := some "2025-01-03" }, { date := some "2025-01-02" }, { date := some "2025-01-01" }]) = 5 ∧
    calcLongestStreak [] = .ok 0 :=
  ⟨(longest_streak_max_run _ (by decide)).1, by rfl,
   (longest_streak_max_run [] (by decide)).2.1 rfl⟩

end OshiSuta
